import Mathlib

/-!
Verification of the authentication/session subsystem of the Chronosi repository.

The definitions below are a shallow embedding of:
  * the client auth orchestrator in `src/unnamed/part_008` (`AuthContext`):
    error taxonomy, `determineErrorType`, `retryWithBackoff`, default retry config;
  * the backend auth routes in `src/backend/src/routes/auth.ts`:
    `generateTokens`, the `/auth/refresh` handler, the `/auth/logout` handler,
    and the `authLimiter` rate-limit configuration;
  * the access-token middleware `authenticateToken` in `src/unnamed/part_014`.

External collaborators (the `jsonwebtoken` and `bcryptjs` libraries, the SQL
store) are modelled explicitly: a signed JWT is represented by its claim set
plus the secret it was signed with, `bcrypt.compare` is an abstract boolean
oracle passed to each handler, and the database is a pair of in-memory lists.
-/

namespace Chronosi

/-! ## Client-side error taxonomy (src/unnamed/part_008, `AuthErrorType`) -/

/-- The closed error taxonomy of `AuthErrorType` in `src/unnamed/part_008`. -/
inductive AuthErrorType where
  | NETWORK_ERROR
  | INVALID_CREDENTIALS
  | ACCOUNT_NOT_FOUND
  | ACCOUNT_DEACTIVATED
  | VALIDATION_ERROR
  | TOKEN_EXPIRED
  | TOKEN_INVALID
  | TOKEN_REFRESH_FAILED
  | RATE_LIMITED
  | SERVER_ERROR
  | UNKNOWN_ERROR
  deriving DecidableEq, Repr

/-- The `AuthError` record of `src/unnamed/part_008`: a kind from the taxonomy,
a human-readable message and an optional retry-after duration. -/
structure AuthError where
  type : AuthErrorType
  message : String
  retryAfter : Option Nat
  deriving DecidableEq, Repr

/-- Embedding of `determineErrorType` (src/unnamed/part_008 lines 101-133).
`onLine` is `navigator.onLine`; `response` is the HTTP status of the response
when one was received; `errorLooksLikeFetch` is the JS check
`error.name === TypeError || error.message.includes fetch`. -/
def determineErrorType (onLine : Bool) (response : Option Nat)
    (errorLooksLikeFetch : Bool) : AuthErrorType :=
  if !onLine then .NETWORK_ERROR
  else
    match response with
    | some status =>
      if status = 401 then .INVALID_CREDENTIALS
      else if status = 403 then .ACCOUNT_DEACTIVATED
      else if status = 404 then .ACCOUNT_NOT_FOUND
      else if status = 422 then .VALIDATION_ERROR
      else if status = 429 then .RATE_LIMITED
      else if status = 500 ∨ status = 502 ∨ status = 503 ∨ status = 504 then .SERVER_ERROR
      else .UNKNOWN_ERROR
    | none => if errorLooksLikeFetch then .NETWORK_ERROR else .UNKNOWN_ERROR

/-! ## Client retry wrapper (src/unnamed/part_008, `retryWithBackoff`) -/

/-- The `RetryConfig` interface of `src/unnamed/part_008`. Delays are in
milliseconds, as in the source. -/
structure RetryConfig where
  maxRetries : Nat
  baseDelay : Nat
  maxDelay : Nat
  deriving DecidableEq, Repr

/-- `DEFAULT_RETRY_CONFIG` (src/unnamed/part_008 lines 82-86):
3 retries, 1 s base delay, 8 s delay cap. -/
def DEFAULT_RETRY_CONFIG : RetryConfig :=
  { maxRetries := 3, baseDelay := 1000, maxDelay := 8000 }

/-- Outcome of one attempt of the wrapped async operation: either a value or a
thrown error carrying its attached `AuthError`. -/
inductive Outcome (T : Type) where
  | ok (v : T)
  | err (e : AuthError)
  deriving DecidableEq, Repr

/-- Does the haystack character list start with the needle. -/
def frontMatches : List Char → List Char → Bool
  | [], _ => true
  | _ :: _, [] => false
  | c :: cs, d :: ds => c == d && frontMatches cs ds

/-- Embedding of the JS `String.prototype.includes` over character lists:
the needle occurs contiguously somewhere in the haystack. -/
def includesChars (needle : List Char) : List Char → Bool
  | [] => needle.isEmpty
  | c :: rest => frontMatches needle (c :: rest) || includesChars needle rest

/-- The only early-abort test of `retryWithBackoff`
(src/unnamed/part_008 line 183): the thrown error's message contains the
literal substring INVALID_CREDENTIALS. -/
def isNonRetryableMessage (e : AuthError) : Bool :=
  includesChars "INVALID_CREDENTIALS".toList e.message.toList

/-- Delay inserted after failed attempt `attempt` (0-indexed), from
src/unnamed/part_008 lines 192-199: exponential backoff capped at `maxDelay`,
plus the jitter term `Math.random() * 1000` passed here explicitly. -/
def retryDelay (config : RetryConfig) (attempt : Nat) (jitter : Nat) : Nat :=
  min (config.baseDelay * 2 ^ attempt) config.maxDelay + jitter

/-- Observable trace of one run of the retry loop: the settled result, the
number of attempts performed, and the inserted backoff delays in order. -/
structure RetryTrace (T : Type) where
  result : Outcome T
  attempts : Nat
  delays : List Nat
  deriving DecidableEq, Repr

/-- The loop body of `retryWithBackoff` (src/unnamed/part_008 lines 176-203).
`op n` is the outcome of the attempt with loop index `n`; `remaining` counts
the loop iterations still allowed after the current one (so the JS guard
`attempt === config.maxRetries` is `remaining = 0`); `jitter n` is the
sampled `Math.random() * 1000` of iteration `n`. -/
def retryGo {T : Type} (config : RetryConfig) (op : Nat → Outcome T)
    (jitter : Nat → Nat) : Nat → Nat → RetryTrace T
  | attempt, 0 =>
    match op attempt with
    | .ok v => ⟨.ok v, 1, []⟩
    | .err e => ⟨.err e, 1, []⟩
  | attempt, remaining + 1 =>
    match op attempt with
    | .ok v => ⟨.ok v, 1, []⟩
    | .err e =>
      if isNonRetryableMessage e then ⟨.err e, 1, []⟩
      else
        let rest := retryGo config op jitter (attempt + 1) remaining
        ⟨rest.result, rest.attempts + 1,
          retryDelay config attempt (jitter attempt) :: rest.delays⟩

/-- `retryWithBackoff` (src/unnamed/part_008 lines 170-206): run the loop from
attempt 0 with `config.maxRetries` further iterations allowed. -/
def retryWithBackoff {T : Type} (op : Nat → Outcome T) (config : RetryConfig)
    (jitter : Nat → Nat) : RetryTrace T :=
  retryGo config op jitter 0 config.maxRetries

/-! ## Server-side data model (src/backend/src/routes/auth.ts) -/

/-- A signed JWT, represented by its claim set together with the secret it was
signed with and its expiry instant. `jwt.verify tok secret` succeeds exactly
when the secrets coincide (signature) and the expiry is in the future. -/
structure Token where
  userId : String
  type : String
  secret : String
  exp : Nat
  deriving DecidableEq, Repr

/-- A row of the `users` table, restricted to the columns the auth subsystem
reads (`id`, `is_active`). -/
structure UserRow where
  id : String
  is_active : Bool
  deriving DecidableEq, Repr

/-- A row of the `user_sessions` table, restricted to the columns the auth
subsystem reads (`id`, `user_id`, `refresh_token_hash`, `is_active`,
`expires_at`). -/
structure SessionRow where
  id : Nat
  user_id : String
  refresh_token_hash : String
  is_active : Bool
  expires_at : Nat
  deriving DecidableEq, Repr

/-- The shared mutable store: the `users` and `user_sessions` tables. -/
structure Db where
  users : List UserRow
  sessions : List SessionRow
  deriving DecidableEq, Repr

/-- Environment configuration read by the handlers:
`JWT_SECRET`, `JWT_REFRESH_SECRET`, `JWT_EXPIRES_IN`, `JWT_REFRESH_EXPIRES_IN`. -/
structure Env where
  jwtSecret : Option String
  jwtRefreshSecret : Option String
  jwtExpiresIn : Nat
  jwtRefreshExpiresIn : Nat
  deriving DecidableEq, Repr

/-- The error constructors imported from the errorHandler middleware:
`BadRequestError`, `UnauthorizedError`, `ForbiddenError`, `InternalServerError`,
each carrying its message. -/
inductive HttpErr where
  | BadRequest (msg : String)
  | Unauthorized (msg : String)
  | Forbidden (msg : String)
  | InternalServer (msg : String)
  deriving DecidableEq, Repr

/-- Modelled from the spec: the errorHandler middleware itself
(`src/backend/src/middleware/errorHandler.ts`) is not in the source tree, only
its import sites are. Per the spec's external-interface section the named
error constructors map to the conventional HTTP statuses: bad request 400,
unauthorized 401, forbidden 403, internal server error 500. -/
def HttpErr.status : HttpErr → Nat
  | .BadRequest _ => 400
  | .Unauthorized _ => 401
  | .Forbidden _ => 403
  | .InternalServer _ => 500

/-- A bcrypt comparison oracle: the embedding of the external
`bcrypt.compare(token, hash)` primitive. It is a parameter of every handler
that scans stored hashes. -/
def BcryptCompare : Type := Token → String → Bool

/-- Embedding of `generateTokens` (src/backend/src/routes/auth.ts lines
59-80): fail when either signing secret is unset, otherwise mint an access
token signed with `JWT_SECRET` and a refresh token signed with
`JWT_REFRESH_SECRET`, with the configured lifetimes. -/
def generateTokens (env : Env) (now : Nat) (userId : String) :
    Except HttpErr (Token × Token) :=
  match env.jwtSecret, env.jwtRefreshSecret with
  | some s, some rs =>
      .ok (⟨userId, "access", s, now + env.jwtExpiresIn⟩,
           ⟨userId, "refresh", rs, now + env.jwtRefreshExpiresIn⟩)
  | _, _ => .error (.InternalServer "Server configuration error")

/-- The SQL filter of the refresh handler (auth.ts line 299): sessions of the
user that are active and unexpired at the current timestamp. -/
def activeSessions (db : Db) (userId : String) (now : Nat) : List SessionRow :=
  db.sessions.filter fun s =>
    s.user_id == userId && s.is_active && decide (now < s.expires_at)

/-- Embedding of the single-row update
`UPDATE user_sessions SET is_active = false WHERE id = $1`. -/
def invalidateSession (db : Db) (sid : Nat) : Db :=
  { db with
    sessions := db.sessions.map fun s =>
      if s.id = sid then { s with is_active := false } else s }

deriving instance DecidableEq for Except

/-- Result of one call of the refresh route: the store after the call (the
handler mutates it in one failure path) and either an error or the newly
minted access token. -/
structure RefreshOutcome where
  db : Db
  result : Except HttpErr Token
  deriving DecidableEq, Repr

/-- The session stage of the `/auth/refresh` handler
(src/backend/src/routes/auth.ts lines 297-381), entered once the presented
token has passed the JWT and claim-shape gates: fetch the active unexpired
sessions of the claimed user (empty result is a generic 401), scan them for
the first whose stored bcrypt hash matches the presented token (no match is
a generic 401), re-check that the owning user exists and is active
(invalidating the matched session and answering 401 otherwise), and finally
mint the new access token under `JWT_SECRET`. -/
def refreshSessionStage (env : Env) (compare : BcryptCompare) (now : Nat)
    (db : Db) (refreshToken : Token) : RefreshOutcome :=
  let sessions := activeSessions db refreshToken.userId now
  if sessions.isEmpty then
    ⟨db, .error (.Unauthorized "Invalid or expired refresh token")⟩
  else
    match sessions.find? (fun s => compare refreshToken s.refresh_token_hash) with
    | none => ⟨db, .error (.Unauthorized "Invalid refresh token")⟩
    | some matchingSession =>
      match db.users.find? (fun u => u.id == refreshToken.userId) with
      | none =>
          ⟨invalidateSession db matchingSession.id,
            .error (.Unauthorized "User account is not active")⟩
      | some u =>
        if !u.is_active then
          ⟨invalidateSession db matchingSession.id,
            .error (.Unauthorized "User account is not active")⟩
        else
          match env.jwtSecret with
          | none => ⟨db, .error (.InternalServer "Server configuration error")⟩
          | some jwtSecret =>
              ⟨db, .ok ⟨refreshToken.userId, "access", jwtSecret,
                now + env.jwtExpiresIn⟩⟩

/-- Embedding of the `/auth/refresh` handler (src/backend/src/routes/auth.ts
lines 255-393), split in two: the token gates here (body presence, refresh
secret configured, JWT signature, JWT expiry, claim shape with truthy
`userId` and `type == refresh`), then `refreshSessionStage` above for the
session fetch, hash scan, user-liveness re-check and access-token minting.
`tok` is the decoded view of the presented refresh-token string (`none`
models an absent or empty body field); `compare` is the bcrypt oracle; `now`
is the current timestamp. -/
def refreshHandler (env : Env) (compare : BcryptCompare) (now : Nat)
    (db : Db) (tok : Option Token) : RefreshOutcome :=
  match tok with
  | none => ⟨db, .error (.BadRequest "Refresh token is required")⟩
  | some refreshToken =>
    match env.jwtRefreshSecret with
    | none => ⟨db, .error (.InternalServer "Server configuration error")⟩
    | some jwtRefreshSecret =>
      if refreshToken.secret ≠ jwtRefreshSecret then
        ⟨db, .error (.Unauthorized "Invalid refresh token signature")⟩
      else if refreshToken.exp ≤ now then
        ⟨db, .error (.Unauthorized "Refresh token has expired")⟩
      else if refreshToken.userId = "" ∨ refreshToken.type ≠ "refresh" then
        ⟨db, .error (.Unauthorized "Invalid refresh token")⟩
      else
        refreshSessionStage env compare now db refreshToken

/-- Embedding of the `/auth/logout` handler (src/backend/src/routes/auth.ts
lines 396-498), entered with the `userId` the middleware authenticated.
With a refresh token in the body, it scans the caller's active sessions (no
expiry filter, per the SQL on line 407) and invalidates the first whose
stored hash matches; with no token, it flips every active session of the
caller. `storeThrows` models an exception from the session store inside the
handler's inner try/catch: the failure is swallowed after logging, nothing is
updated, and the response is still the 200 success. The returned `Nat` is
the HTTP status of the response. -/
def logoutHandler (compare : BcryptCompare) (userId : String) (db : Db)
    (refreshToken : Option Token) (storeThrows : Bool) : Db × Nat :=
  if storeThrows then (db, 200)
  else
    match refreshToken with
    | some rt =>
      let sessions := db.sessions.filter fun s => s.user_id == userId && s.is_active
      match sessions.find? (fun s => compare rt s.refresh_token_hash) with
      | some s => (invalidateSession db s.id, 200)
      | none => (db, 200)
    | none =>
      ({ db with
          sessions := db.sessions.map fun s =>
            if s.user_id == userId && s.is_active then { s with is_active := false }
            else s },
        200)

/-! ## Access-token middleware (src/unnamed/part_014, `authenticateToken`) -/

/-- Result of the `authenticateToken` middleware: either the authenticated
user's id attached to the request, or the error passed to `next`. -/
inductive AuthMwResult where
  | ok (userId : String)
  | err (e : HttpErr)
  deriving DecidableEq, Repr

/-- Embedding of `authenticateToken` (src/unnamed/part_014 lines 22-90).
`tok` is the decoded view of the bearer token (`none` when the header is
absent). The middleware verifies the token against `JWT_SECRET` only, then
requires a truthy `userId` claim, an existing user row and `is_active`; it
never reads the `type` claim. The catch block maps every
`jwt.JsonWebTokenError` (its `TokenExpiredError` subclass included) to the
Invalid token response. -/
def authenticateToken (env : Env) (now : Nat) (db : Db)
    (tok : Option Token) : AuthMwResult :=
  match tok with
  | none => .err (.Unauthorized "Access token is required")
  | some token =>
    match env.jwtSecret with
    | none => .err (.InternalServer "Server configuration error")
    | some jwtSecret =>
      if token.secret ≠ jwtSecret then .err (.Unauthorized "Invalid token")
      else if token.exp ≤ now then .err (.Unauthorized "Invalid token")
      else if token.userId = "" then .err (.Unauthorized "Invalid token")
      else
        match db.users.find? (fun u => u.id == token.userId) with
        | none => .err (.Unauthorized "User not found")
        | some user =>
          if !user.is_active then .err (.Forbidden "User account is deactivated")
          else .ok user.id

/-! ## Rate limiter (src/backend/src/routes/auth.ts, `authLimiter`) -/

/-- The configuration object handed to the rate-limit middleware
(src/backend/src/routes/auth.ts lines 22-31): a 15-minute window, 5 requests
per source per window, and a retry-after of 15 minutes (in seconds) in the
rejection message. -/
structure RateLimitConfig where
  windowMs : Nat
  maxHits : Nat
  retryAfterSecs : Nat
  deriving DecidableEq, Repr

/-- `authLimiter` (src/backend/src/routes/auth.ts lines 22-31). -/
def authLimiter : RateLimitConfig :=
  { windowMs := 15 * 60 * 1000, maxHits := 5, retryAfterSecs := 15 * 60 }

/-- Decision of the limiter for one request. -/
inductive LimiterDecision where
  | allow
  | reject (status : Nat) (retryAfter : Nat)
  deriving DecidableEq, Repr

/-- Modelled from the spec: the rate-limit middleware is the external
express-rate-limit library, configured by `authLimiter`; per the spec it
enforces a fixed request budget per source address per window and answers
excess requests with 429 and a retry-after value. `prior` is the number of
requests already counted for this source in the current window: the request
is allowed while the incremented counter stays within the budget. -/
def limiterDecide (cfg : RateLimitConfig) (prior : Nat) : LimiterDecision :=
  if prior + 1 ≤ cfg.maxHits then .allow
  else .reject 429 cfg.retryAfterSecs

/-! ## Statement helpers and concrete fixtures -/

/-- Whether a refresh result is an `UnauthorizedError` response. -/
def isUnauthorized : Except HttpErr Token → Bool
  | .error (.Unauthorized _) => true
  | _ => false

/-- The HTTP status of a refresh result, when it is an error response. -/
def errStatus : Except HttpErr Token → Option Nat
  | .error e => some e.status
  | .ok _ => none

/-- Fixture: a bcrypt oracle under which exactly the stored hash `h1`
matches any presented token. -/
def cmpH1 : BcryptCompare := fun _ h => h == "h1"

/-- Fixture: environment with both signing secrets configured. -/
def envA : Env := ⟨some "asec", some "rsec", 7, 30⟩

/-- Fixture: a refresh token for user `u1` signed with the refresh secret of
`envA`, expiring at instant 100. -/
def tokU1 : Token := ⟨"u1", "refresh", "rsec", 100⟩

/-- Fixture: one active user `u1` with two active unexpired sessions, the
first of which stores the hash `h1`. -/
def dbTwoSessions : Db :=
  ⟨[⟨"u1", true⟩], [⟨1, "u1", "h1", true, 200⟩, ⟨2, "u1", "h2", true, 200⟩]⟩

/-- Fixture: a deactivated user `u1` with one active session storing `h1`. -/
def dbInactiveUser : Db := ⟨[⟨"u1", false⟩], [⟨1, "u1", "h1", true, 200⟩]⟩

/-- Fixture: an active user `u1` with no sessions at all. -/
def dbNoSessions : Db := ⟨[⟨"u1", true⟩], []⟩

/-- Fixture: an active user `u1` with one active session whose stored hash
(`zz`) matches no presented token under `cmpH1`. -/
def dbNoMatch : Db := ⟨[⟨"u1", true⟩], [⟨1, "u1", "zz", true, 200⟩]⟩

/-- Fixture: the failure the client receives when the server rate limiter
rejects a request, with the configured message and retry-after. -/
def rateLimitedErr : AuthError :=
  ⟨.RATE_LIMITED, "Too many authentication attempts, please try again later.",
    some 900⟩

/-- Fixture: the failure the client receives on a wrong password: the kind is
classified from the 401 status, the message is the response body's message. -/
def invalidCredErr : AuthError :=
  ⟨.INVALID_CREDENTIALS, "Invalid email or password", none⟩

/-- Fixture: a network failure as built by `createAuthError` when no response
was received. -/
def networkErr : AuthError := ⟨.NETWORK_ERROR, "Failed to fetch", none⟩

/-- Fixture: an error whose message does contain the literal substring the
retry wrapper tests for. -/
def literalCredErr : AuthError :=
  ⟨.INVALID_CREDENTIALS, "INVALID_CREDENTIALS: rejected", none⟩

/-- Fixture: the access token minted by a successful refresh of `tokU1`
against `envA` at instant 50. -/
def accessTokU1 : Token := ⟨"u1", "access", "asec", 57⟩

/-- Fixture: a token carrying `type = refresh` but signed with the access
secret of `envA`, as would arise with both signing secrets configured
equal. -/
def tokRefreshUnderAccessSecret : Token := ⟨"u1", "refresh", "asec", 100⟩

/-- Fixture: the first session row of `dbTwoSessions`. -/
def sessionOne : SessionRow := ⟨1, "u1", "h1", true, 200⟩

/-! ## Lemmas about the retry loop -/

/-- Every run of the retry loop performs at least one attempt. -/
theorem retryGo_attempts_pos {T : Type} (config : RetryConfig) (op : Nat → Outcome T)
    (jitter : Nat → Nat) (a r : Nat) : 1 ≤ (retryGo config op jitter a r).attempts := by
  cases r with
  | zero => cases hop : op a <;> simp [retryGo, hop]
  | succ r =>
    cases hop : op a with
    | ok v => simp [retryGo, hop]
    | err e =>
      by_cases hn : isNonRetryableMessage e = true
      · simp [retryGo, hop, hn]
      · simp only [retryGo, hop, hn, if_false, Bool.false_eq_true]
        omega

/-- When every attempt fails and no failure message triggers the early
abort, the loop uses all its iterations: starting at attempt `a` with `r`
iterations left it performs `r + 1` attempts and settles on the error of the
last attempt. -/
theorem retryGo_allFail {T : Type} (config : RetryConfig) (op : Nat → Outcome T)
    (jitter : Nat → Nat) (es : Nat → AuthError)
    (hop : ∀ n, op n = .err (es n))
    (hmsg : ∀ n, isNonRetryableMessage (es n) = false) :
    ∀ r a, (retryGo config op jitter a r).attempts = r + 1 ∧
      (retryGo config op jitter a r).result = .err (es (a + r)) := by
  intro r
  induction r with
  | zero => intro a; simp [retryGo, hop a]
  | succ r ih =>
    intro a
    have h1 := ih (a + 1)
    have hx : a + 1 + r = a + (r + 1) := by omega
    constructor
    · simp [retryGo, hop a, hmsg a, h1.1]
    · simp [retryGo, hop a, hmsg a, h1.2, hx]

/-- Every delay recorded by the retry loop is the backoff formula evaluated
at the index of the failed attempt that caused it. -/
theorem retryGo_delays_mem {T : Type} (config : RetryConfig) (op : Nat → Outcome T)
    (jitter : Nat → Nat) :
    ∀ r a d, d ∈ (retryGo config op jitter a r).delays →
      ∃ n, d = retryDelay config n (jitter n) := by
  intro r
  induction r with
  | zero =>
    intro a d hd
    cases hop : op a <;> simp [retryGo, hop] at hd
  | succ r ih =>
    intro a d hd
    cases hop : op a with
    | ok v => simp [retryGo, hop] at hd
    | err e =>
      by_cases hn : isNonRetryableMessage e = true
      · simp [retryGo, hop, hn] at hd
      · simp only [retryGo, hop, hn, if_false, Bool.false_eq_true, List.mem_cons] at hd
        rcases hd with h | h
        · exact ⟨a, h⟩
        · exact ih (a + 1) d h

/-! ## Claims about the client retry wrapper -/

/-- C1: counterexample. Under the default configuration, an operation whose
every attempt fails with a RateLimited-kind error (carrying the server
limiter's actual message) is retried to 4 attempts instead of aborting
immediately, and likewise an operation failing with an
InvalidCredentials-kind error carrying the server's actual 401 message
(`Invalid email or password`): the claim requires both to stop after a
single attempt, since neither kind is NetworkError or ServerError. -/
theorem c1_abort_kinds_counterexample :
    (retryWithBackoff (fun _ => (Outcome.err rateLimitedErr : Outcome Unit))
        DEFAULT_RETRY_CONFIG (fun _ => 0)).attempts = 4 ∧
    (retryWithBackoff (fun _ => (Outcome.err invalidCredErr : Outcome Unit))
        DEFAULT_RETRY_CONFIG (fun _ => 0)).attempts = 4 ∧
    rateLimitedErr.type = .RATE_LIMITED ∧
    invalidCredErr.type = .INVALID_CREDENTIALS ∧
    (4 : Nat) ≠ 1 := by decide

/-- C1 (amended): the retry wrapper's abort test reads only the failure's
message, never its kind: an attempt failing with an error whose message
contains the literal substring INVALID_CREDENTIALS aborts immediately with
no further attempts; a first-attempt failure with any other message —
whatever its kind in the taxonomy — is retried under the backoff policy. -/
theorem c1_retry_abort_policy (op : Nat → Outcome Unit) (config : RetryConfig)
    (jitter : Nat → Nat) (e : AuthError) (h0 : op 0 = .err e) :
    (isNonRetryableMessage e = true →
      retryWithBackoff op config jitter = ⟨.err e, 1, []⟩) ∧
    (isNonRetryableMessage e = false → 1 ≤ config.maxRetries →
      2 ≤ (retryWithBackoff op config jitter).attempts) ∧
    (∀ k, isNonRetryableMessage { e with type := k } = isNonRetryableMessage e) := by
  refine ⟨?_, ?_, fun k => rfl⟩
  · intro hn
    unfold retryWithBackoff
    cases hr : config.maxRetries with
    | zero => simp [retryGo, h0]
    | succ r => simp [retryGo, h0, hn]
  · intro hn hr
    unfold retryWithBackoff
    obtain ⟨r, hr2⟩ : ∃ r, config.maxRetries = r + 1 := ⟨config.maxRetries - 1, by omega⟩
    rw [hr2]
    simp only [retryGo, h0, hn, if_false, Bool.false_eq_true, Nat.zero_add]
    have hp := retryGo_attempts_pos config op jitter 1 r
    have hp0 := retryGo_attempts_pos config op jitter (0 + 1) r
    omega

/-- C1 (amended) witness at a concrete input: a failure whose message holds
the literal substring aborts after one attempt. -/
theorem c1_retry_abort_policy_witness :
    (isNonRetryableMessage literalCredErr = true →
      retryWithBackoff (fun _ => (Outcome.err literalCredErr : Outcome Unit))
        DEFAULT_RETRY_CONFIG (fun _ => 0) = ⟨.err literalCredErr, 1, []⟩) ∧
    (isNonRetryableMessage literalCredErr = false → 1 ≤ DEFAULT_RETRY_CONFIG.maxRetries →
      2 ≤ (retryWithBackoff (fun _ => (Outcome.err literalCredErr : Outcome Unit))
        DEFAULT_RETRY_CONFIG (fun _ => 0)).attempts) ∧
    (∀ k, isNonRetryableMessage { literalCredErr with type := k } =
      isNonRetryableMessage literalCredErr) :=
  c1_retry_abort_policy _ DEFAULT_RETRY_CONFIG _ literalCredErr rfl

/-- The network failure fixture's message does not contain the wrapper's
abort substring. -/
theorem networkErr_retryable : isNonRetryableMessage networkErr = false := by decide

/-- A jitter sample of 999 ms is below the 1000 ms jitter bound. -/
theorem jitter_bound_999 : (999 : Nat) < 1000 := by decide

/-- C7: when every attempt fails with a NetworkError (whose message, as for
every real network failure, does not contain the wrapper's abort substring),
the retry wrapper performs exactly maxRetries + 1 attempts — 4 under the
default configuration — and settles on the final NetworkError. -/
theorem c7_retry_exhaustion (op : Nat → Outcome Unit) (config : RetryConfig)
    (jitter : Nat → Nat) (es : Nat → AuthError)
    (hop : ∀ n, op n = .err (es n))
    (hnet : ∀ n, (es n).type = .NETWORK_ERROR)
    (hmsg : ∀ n, isNonRetryableMessage (es n) = false) :
    (retryWithBackoff op config jitter).attempts = config.maxRetries + 1 ∧
    (retryWithBackoff op config jitter).result = .err (es config.maxRetries) ∧
    (es config.maxRetries).type = .NETWORK_ERROR ∧
    (retryWithBackoff op DEFAULT_RETRY_CONFIG jitter).attempts = 4 := by
  have h := retryGo_allFail config op jitter es hop hmsg config.maxRetries 0
  have hd := retryGo_allFail DEFAULT_RETRY_CONFIG op jitter es hop hmsg
    DEFAULT_RETRY_CONFIG.maxRetries 0
  refine ⟨?_, ?_, hnet _, ?_⟩
  · simpa [retryWithBackoff] using h.1
  · simpa [retryWithBackoff] using h.2
  · simpa [retryWithBackoff, DEFAULT_RETRY_CONFIG] using hd.1

/-- C7 witness at a concrete input: an operation failing every attempt with
the network failure fixture exhausts all 4 default attempts. -/
theorem c7_retry_exhaustion_witness :
    (retryWithBackoff (fun _ => (Outcome.err networkErr : Outcome Unit))
        DEFAULT_RETRY_CONFIG (fun _ => 500)).attempts = DEFAULT_RETRY_CONFIG.maxRetries + 1 ∧
    (retryWithBackoff (fun _ => (Outcome.err networkErr : Outcome Unit))
        DEFAULT_RETRY_CONFIG (fun _ => 500)).result = .err networkErr ∧
    networkErr.type = .NETWORK_ERROR ∧
    (retryWithBackoff (fun _ => (Outcome.err networkErr : Outcome Unit))
        DEFAULT_RETRY_CONFIG (fun _ => 500)).attempts = 4 :=
  c7_retry_exhaustion _ DEFAULT_RETRY_CONFIG _ (fun _ => networkErr)
    (fun _ => rfl) (fun _ => rfl) (fun _ => networkErr_retryable)

/-- C8: the delay inserted after failed attempt n (0-indexed) is
min (baseDelay * 2 ^ n, maxDelay) plus the jitter sample of that iteration;
under the default configuration (baseDelay 1000 ms, maxDelay 8000 ms,
maxRetries 3) and with every jitter sample below 1000 ms, every inserted
delay is strictly below maxDelay + 1000 ms. -/
theorem c8_backoff_delay_formula (op : Nat → Outcome Unit) (jitter : Nat → Nat)
    (hj : ∀ n, jitter n < 1000) :
    (∀ n, retryDelay DEFAULT_RETRY_CONFIG n (jitter n) =
        min (1000 * 2 ^ n) 8000 + jitter n) ∧
    DEFAULT_RETRY_CONFIG.baseDelay = 1000 ∧
    DEFAULT_RETRY_CONFIG.maxDelay = 8000 ∧
    DEFAULT_RETRY_CONFIG.maxRetries = 3 ∧
    (∀ d ∈ (retryWithBackoff op DEFAULT_RETRY_CONFIG jitter).delays,
      (∃ n, d = min (1000 * 2 ^ n) 8000 + jitter n) ∧ d < 8000 + 1000) := by
  refine ⟨fun n => rfl, rfl, rfl, rfl, ?_⟩
  intro d hd
  obtain ⟨n, hn⟩ := retryGo_delays_mem DEFAULT_RETRY_CONFIG op jitter
    DEFAULT_RETRY_CONFIG.maxRetries 0 d hd
  have hlt : retryDelay DEFAULT_RETRY_CONFIG n (jitter n) < 8000 + 1000 := by
    have h1 : min (1000 * 2 ^ n) 8000 ≤ 8000 := Nat.min_le_right _ _
    have h2 := hj n
    show min (1000 * 2 ^ n) 8000 + jitter n < 8000 + 1000
    exact Nat.lt_of_lt_of_le (Nat.add_lt_add_left h2 _) (Nat.add_le_add_right h1 _)
  exact ⟨⟨n, hn⟩, by rw [hn]; exact hlt⟩

/-- C8 witness at a concrete input: with maximal jitter 999 ms the bound
holds on an all-failing run. -/
theorem c8_backoff_delay_formula_witness :
    (∀ n, retryDelay DEFAULT_RETRY_CONFIG n ((fun _ => 999) n) =
        min (1000 * 2 ^ n) 8000 + (fun _ => 999) n) ∧
    DEFAULT_RETRY_CONFIG.baseDelay = 1000 ∧
    DEFAULT_RETRY_CONFIG.maxDelay = 8000 ∧
    DEFAULT_RETRY_CONFIG.maxRetries = 3 ∧
    (∀ d ∈ (retryWithBackoff (fun _ => (Outcome.err networkErr : Outcome Unit))
        DEFAULT_RETRY_CONFIG (fun _ => 999)).delays,
      (∃ n, d = min (1000 * 2 ^ n) 8000 + (fun _ => 999) n) ∧ d < 8000 + 1000) :=
  c8_backoff_delay_formula _ (fun _ => 999) (fun _ => jitter_bound_999)

/-! ## Lemmas about the refresh and logout handlers -/

/-- An Unauthorized error response carries HTTP status 401. -/
theorem errStatus_of_isUnauthorized (r : Except HttpErr Token)
    (h : isUnauthorized r = true) : errStatus r = some 401 := by
  cases r with
  | ok v => simp [isUnauthorized] at h
  | error e => cases e <;> simp_all [isUnauthorized, errStatus, HttpErr.status]

/-- Once the presented token passes the JWT and claim-shape gates, the
refresh handler is its session stage. -/
theorem refreshHandler_valid (env : Env) (compare : BcryptCompare) (now : Nat)
    (db : Db) (t : Token) (rs : String)
    (hsec : env.jwtRefreshSecret = some rs) (hsig : t.secret = rs)
    (hexp : now < t.exp) (huid : t.userId ≠ "") (hty : t.type = "refresh") :
    refreshHandler env compare now db (some t) =
      refreshSessionStage env compare now db t := by
  unfold refreshHandler
  rw [hsec]
  simp [hsig, huid, hty, Nat.not_le.mpr hexp]

/-- When no active unexpired session of the claimed user matches the
presented token, the session stage answers one of the two generic 401
responses without touching the store. -/
theorem refreshSessionStage_nomatch (env : Env) (compare : BcryptCompare)
    (now : Nat) (db : Db) (t : Token)
    (hall : ∀ s ∈ activeSessions db t.userId now,
      compare t s.refresh_token_hash = false) :
    refreshSessionStage env compare now db t =
      ⟨db, .error (.Unauthorized "Invalid or expired refresh token")⟩ ∨
    refreshSessionStage env compare now db t =
      ⟨db, .error (.Unauthorized "Invalid refresh token")⟩ := by
  have hfind : (activeSessions db t.userId now).find?
      (fun s => compare t s.refresh_token_hash) = none :=
    List.find?_eq_none.mpr (fun s hs => by simp [hall s hs])
  by_cases he : (activeSessions db t.userId now).isEmpty
  · left; simp [refreshSessionStage, he]
  · right; simp [refreshSessionStage, he, hfind]

/-- Shape of a successful session stage: the store is untouched, the minted
token is an access token for the claimed user under the configured access
secret, and some active unexpired session of that user matched the presented
token. -/
theorem refreshSessionStage_ok (env : Env) (compare : BcryptCompare)
    (now : Nat) (db : Db) (t : Token) (a : Token)
    (h : (refreshSessionStage env compare now db t).result = .ok a) :
    env.jwtSecret = some a.secret ∧
    refreshSessionStage env compare now db t = ⟨db, .ok a⟩ ∧
    a = ⟨t.userId, "access", a.secret, now + env.jwtExpiresIn⟩ ∧
    ∃ s ∈ db.sessions, s.user_id = t.userId ∧ s.is_active = true ∧
      now < s.expires_at ∧ compare t s.refresh_token_hash = true := by
  by_cases he : (activeSessions db t.userId now).isEmpty
  · simp [refreshSessionStage, he] at h
  · cases hf : (activeSessions db t.userId now).find?
        (fun s => compare t s.refresh_token_hash) with
    | none => simp [refreshSessionStage, he, hf] at h
    | some ms =>
      cases hu : db.users.find? (fun u => u.id == t.userId) with
      | none => simp [refreshSessionStage, he, hf, hu] at h
      | some u =>
        by_cases ha : u.is_active
        · cases hs : env.jwtSecret with
          | none => simp [refreshSessionStage, he, hf, hu, ha, hs] at h
          | some js =>
            have hstage : refreshSessionStage env compare now db t =
                ⟨db, .ok ⟨t.userId, "access", js, now + env.jwtExpiresIn⟩⟩ := by
              simp [refreshSessionStage, he, hf, hu, ha, hs]
            rw [hstage] at h
            simp only [Except.ok.injEq] at h
            subst h
            have hmem := List.mem_of_find?_eq_some hf
            have hcmp := List.find?_some hf
            rw [activeSessions, List.mem_filter] at hmem
            obtain ⟨hmemdb, hcond⟩ := hmem
            simp only [Bool.and_eq_true, beq_iff_eq, decide_eq_true_eq] at hcond
            exact ⟨rfl, hstage, rfl, ms, hmemdb, hcond.1.1, hcond.1.2, hcond.2, hcmp⟩
        · simp [refreshSessionStage, he, hf, hu, ha] at h

/-- A successful refresh must have passed every token gate, so the handler
coincides with its session stage there. -/
theorem refreshHandler_ok (env : Env) (compare : BcryptCompare) (now : Nat)
    (db : Db) (t : Token) (a : Token)
    (h : (refreshHandler env compare now db (some t)).result = .ok a) :
    refreshHandler env compare now db (some t) =
      refreshSessionStage env compare now db t ∧
    (refreshSessionStage env compare now db t).result = .ok a := by
  cases hsec : env.jwtRefreshSecret with
  | none =>
    have hx : refreshHandler env compare now db (some t) =
        ⟨db, .error (.InternalServer "Server configuration error")⟩ := by
      unfold refreshHandler; rw [hsec]
    rw [hx] at h; simp at h
  | some rs =>
    by_cases h1 : t.secret = rs
    · by_cases h2 : t.exp ≤ now
      · have hx : refreshHandler env compare now db (some t) =
            ⟨db, .error (.Unauthorized "Refresh token has expired")⟩ := by
          unfold refreshHandler; rw [hsec]; simp [h1, h2]
        rw [hx] at h; simp at h
      · by_cases h3 : t.userId = "" ∨ t.type ≠ "refresh"
        · have hx : refreshHandler env compare now db (some t) =
              ⟨db, .error (.Unauthorized "Invalid refresh token")⟩ := by
            unfold refreshHandler
            rw [hsec]
            dsimp only
            rw [if_neg (not_not_intro h1), if_neg h2, if_pos h3]
          rw [hx] at h; simp at h
        · rcases not_or.mp h3 with ⟨h3a, h3b⟩
          have hv := refreshHandler_valid env compare now db t rs hsec h1
            (Nat.lt_of_not_le h2) h3a (not_not.mp h3b)
          rw [hv] at h
          exact ⟨hv, h⟩
    · have hx : refreshHandler env compare now db (some t) =
          ⟨db, .error (.Unauthorized "Invalid refresh token signature")⟩ := by
        unfold refreshHandler; rw [hsec]; simp [h1]
      rw [hx] at h; simp at h

/-- Effect of logout-with-token when exactly one of the caller's active
sessions matches the presented token: every copy of the matched row is
flipped inactive, every other row survives, and afterwards no active session
of the caller matches the token. -/
theorem logout_some_spec (compare : BcryptCompare) (uid : String) (db : Db)
    (t : Token) (s₀ : SessionRow)
    (hmem : s₀ ∈ db.sessions) (hu : s₀.user_id = uid) (hact : s₀.is_active = true)
    (hcmp : compare t s₀.refresh_token_hash = true)
    (huniq : ∀ s ∈ db.sessions, s.user_id = uid → s.is_active = true →
      compare t s.refresh_token_hash = true → s.id = s₀.id) :
    (∀ s ∈ (logoutHandler compare uid db (some t) false).1.sessions,
        s.id = s₀.id → s.is_active = false) ∧
    (∀ s ∈ db.sessions, s.id ≠ s₀.id →
        s ∈ (logoutHandler compare uid db (some t) false).1.sessions) ∧
    (∀ s ∈ (logoutHandler compare uid db (some t) false).1.sessions,
        s.user_id = uid → s.is_active = true →
        compare t s.refresh_token_hash = false) := by
  have hs₀L : s₀ ∈ db.sessions.filter (fun s => s.user_id == uid && s.is_active) := by
    rw [List.mem_filter]
    exact ⟨hmem, by simp [hu, hact]⟩
  cases hf : (db.sessions.filter (fun s => s.user_id == uid && s.is_active)).find?
      (fun s => compare t s.refresh_token_hash) with
  | none =>
    exact absurd hcmp (by simpa using List.find?_eq_none.mp hf s₀ hs₀L)
  | some s₁ =>
    have hs₁L := List.mem_of_find?_eq_some hf
    have hs₁cmp := List.find?_some hf
    rw [List.mem_filter] at hs₁L
    obtain ⟨hs₁db, hcond⟩ := hs₁L
    simp only [Bool.and_eq_true, beq_iff_eq] at hcond
    have hid : s₁.id = s₀.id := huniq s₁ hs₁db hcond.1 hcond.2 hs₁cmp
    have hdb : (logoutHandler compare uid db (some t) false).1 =
        invalidateSession db s₁.id := by
      simp [logoutHandler, hf]
    rw [hdb]
    refine ⟨?_, ?_, ?_⟩
    · intro s hs hsid
      simp only [invalidateSession, List.mem_map] at hs
      obtain ⟨s₂, hs₂, hfs⟩ := hs
      by_cases h : s₂.id = s₁.id
      · rw [if_pos h] at hfs
        rw [← hfs]
      · rw [if_neg h] at hfs
        rw [← hfs] at hsid
        exact absurd (hid ▸ hsid) h
    · intro s hs hsid
      simp only [invalidateSession, List.mem_map]
      refine ⟨s, hs, ?_⟩
      rw [if_neg (by rw [hid]; exact hsid)]
    · intro s hs huid2 hact2
      simp only [invalidateSession, List.mem_map] at hs
      obtain ⟨s₂, hs₂, hfs⟩ := hs
      by_cases h : s₂.id = s₁.id
      · rw [if_pos h] at hfs
        rw [← hfs] at hact2
        simp at hact2
      · rw [if_neg h] at hfs
        subst hfs
        cases hcc : compare t s₂.refresh_token_hash with
        | false => rfl
        | true => exact absurd (hid ▸ huniq s₂ hs₂ huid2 hact2 hcc) h

/-! ## Claims about the refresh and logout routes -/

/-- C2: a refresh can succeed only through a session of the claimed user that
is active and unexpired at the time of the call; and after a logout that
invalidates the session matching a refresh token whose own signature and
expiry are still valid, a refresh presenting that token fails with the
generic 401 Unauthorized response. -/
theorem c2_refresh_session_invariant (env : Env) (compare : BcryptCompare)
    (now : Nat) (db : Db) (t : Token) :
    (∀ a, (refreshHandler env compare now db (some t)).result = .ok a →
      ∃ s ∈ db.sessions, s.user_id = t.userId ∧ s.is_active = true ∧
        now < s.expires_at ∧ compare t s.refresh_token_hash = true) ∧
    (∀ s₀ rs, env.jwtRefreshSecret = some rs → t.secret = rs → now < t.exp →
      t.userId ≠ "" → t.type = "refresh" →
      s₀ ∈ db.sessions → s₀.user_id = t.userId → s₀.is_active = true →
      compare t s₀.refresh_token_hash = true →
      (∀ s ∈ db.sessions, s.user_id = t.userId → s.is_active = true →
        compare t s.refresh_token_hash = true → s.id = s₀.id) →
      isUnauthorized (refreshHandler env compare now
        (logoutHandler compare t.userId db (some t) false).1 (some t)).result = true ∧
      errStatus (refreshHandler env compare now
        (logoutHandler compare t.userId db (some t) false).1 (some t)).result =
        some 401) := by
  constructor
  · intro a h
    obtain ⟨heq, hst⟩ := refreshHandler_ok env compare now db t a h
    exact (refreshSessionStage_ok env compare now db t a hst).2.2.2
  · intro s₀ rs hsec hsig hexp huid hty hmem hu hact hcmp huniq
    have hspec := logout_some_spec compare t.userId db t s₀ hmem hu hact hcmp huniq
    have hall : ∀ s ∈ activeSessions
        (logoutHandler compare t.userId db (some t) false).1 t.userId now,
        compare t s.refresh_token_hash = false := by
      intro s hs
      rw [activeSessions, List.mem_filter] at hs
      obtain ⟨hsdb, hcond⟩ := hs
      simp only [Bool.and_eq_true, beq_iff_eq, decide_eq_true_eq] at hcond
      exact hspec.2.2 s hsdb hcond.1.1 hcond.1.2
    have hv := refreshHandler_valid env compare now
      (logoutHandler compare t.userId db (some t) false).1 t rs hsec hsig hexp huid hty
    rcases refreshSessionStage_nomatch env compare now
        (logoutHandler compare t.userId db (some t) false).1 t hall with hcase | hcase
    · rw [hv, hcase]; exact ⟨rfl, rfl⟩
    · rw [hv, hcase]; exact ⟨rfl, rfl⟩

/-- C2 witness at a concrete input: after logging out the matching session of
`dbTwoSessions`, refreshing with the same still-valid token is rejected 401;
and the successful refresh on the untouched store went through an active
unexpired matching session. -/
theorem c2_refresh_session_invariant_witness :
    (∃ s ∈ dbTwoSessions.sessions, s.user_id = tokU1.userId ∧
      s.is_active = true ∧ 50 < s.expires_at ∧
      cmpH1 tokU1 s.refresh_token_hash = true) ∧
    isUnauthorized (refreshHandler envA cmpH1 50
      (logoutHandler cmpH1 tokU1.userId dbTwoSessions (some tokU1) false).1
      (some tokU1)).result = true ∧
    errStatus (refreshHandler envA cmpH1 50
      (logoutHandler cmpH1 tokU1.userId dbTwoSessions (some tokU1) false).1
      (some tokU1)).result = some 401 :=
  ⟨(c2_refresh_session_invariant envA cmpH1 50 dbTwoSessions tokU1).1
      accessTokU1 (by decide),
   (c2_refresh_session_invariant envA cmpH1 50 dbTwoSessions tokU1).2
      sessionOne "rsec" rfl rfl (by decide) (by decide) rfl (by decide) rfl rfl
      (by decide) (by decide)⟩

/-- C3: a successful refresh leaves the store untouched — no session row is
created, rotated or modified — so an immediate second refresh with the same
token succeeds with the same usable access token. -/
theorem c3_refresh_no_rotation (env : Env) (compare : BcryptCompare)
    (now : Nat) (db : Db) (t : Token) (a : Token)
    (h : (refreshHandler env compare now db (some t)).result = .ok a) :
    (refreshHandler env compare now db (some t)).db = db ∧
    (refreshHandler env compare now
      ((refreshHandler env compare now db (some t)).db) (some t)).result = .ok a ∧
    a.type = "access" ∧ a.userId = t.userId ∧ env.jwtSecret = some a.secret := by
  obtain ⟨heq, hst⟩ := refreshHandler_ok env compare now db t a h
  obtain ⟨hjs, hstage, hshape, -⟩ := refreshSessionStage_ok env compare now db t a hst
  have hdb : (refreshHandler env compare now db (some t)).db = db := by
    rw [heq, hstage]
  refine ⟨hdb, ?_, ?_, ?_, hjs⟩
  · rw [hdb]; exact h
  · rw [hshape]
  · rw [hshape]

/-- C3 witness at a concrete input: refreshing twice in a row against
`dbTwoSessions` succeeds both times with the minted access token. -/
theorem c3_refresh_no_rotation_witness :
    (refreshHandler envA cmpH1 50 dbTwoSessions (some tokU1)).db = dbTwoSessions ∧
    (refreshHandler envA cmpH1 50
      ((refreshHandler envA cmpH1 50 dbTwoSessions (some tokU1)).db)
      (some tokU1)).result = .ok accessTokU1 ∧
    accessTokU1.type = "access" ∧ accessTokU1.userId = tokU1.userId ∧
    envA.jwtSecret = some accessTokU1.secret :=
  c3_refresh_no_rotation envA cmpH1 50 dbTwoSessions tokU1 accessTokU1 (by decide)

/-- C4: counterexample. With the same valid token, the run with no active
session yields the body message `Invalid or expired refresh token` while the
run with sessions but no hash match yields `Invalid refresh token`: the two
caller-visible failures are different responses, so the caller can
distinguish the two cases by message even though both are 401. -/
theorem c4_distinguishable_counterexample :
    (refreshHandler envA cmpH1 50 dbNoSessions (some tokU1)).result =
      .error (.Unauthorized "Invalid or expired refresh token") ∧
    (refreshHandler envA cmpH1 50 dbNoMatch (some tokU1)).result =
      .error (.Unauthorized "Invalid refresh token") ∧
    (refreshHandler envA cmpH1 50 dbNoSessions (some tokU1)).result ≠
      (refreshHandler envA cmpH1 50 dbNoMatch (some tokU1)).result ∧
    errStatus (refreshHandler envA cmpH1 50 dbNoSessions (some tokU1)).result =
      some 401 ∧
    errStatus (refreshHandler envA cmpH1 50 dbNoMatch (some tokU1)).result =
      some 401 := by decide

/-- C4 (amended): for a validly signed, well-formed refresh token, the
no-active-session run and the no-hash-match run both end in an Unauthorized
response with the same HTTP status 401 — both classified as the same generic
kind by the client — but the two response messages differ, so the two
failures are not identical as caller-visible responses. -/
theorem c4_enumeration_status (env : Env) (compare : BcryptCompare)
    (now : Nat) (db : Db) (t : Token) (rs : String)
    (hsec : env.jwtRefreshSecret = some rs) (hsig : t.secret = rs)
    (hexp : now < t.exp) (huid : t.userId ≠ "") (hty : t.type = "refresh") :
    (activeSessions db t.userId now = [] →
      (refreshHandler env compare now db (some t)).result =
        .error (.Unauthorized "Invalid or expired refresh token")) ∧
    ((∀ s ∈ activeSessions db t.userId now, compare t s.refresh_token_hash = false) →
      activeSessions db t.userId now ≠ [] →
      (refreshHandler env compare now db (some t)).result =
        .error (.Unauthorized "Invalid refresh token")) ∧
    (∀ m, errStatus (.error (.Unauthorized m)) = some 401) ∧
    determineErrorType true (some 401) false = .INVALID_CREDENTIALS ∧
    "Invalid or expired refresh token" ≠ "Invalid refresh token" := by
  have hv := refreshHandler_valid env compare now db t rs hsec hsig hexp huid hty
  refine ⟨?_, ?_, fun m => rfl, by decide, by decide⟩
  · intro hemp
    rw [hv]
    simp [refreshSessionStage, hemp]
  · intro hall hne
    have hfind : (activeSessions db t.userId now).find?
        (fun s => compare t s.refresh_token_hash) = none :=
      List.find?_eq_none.mpr (fun s hs => by simp [hall s hs])
    have he : (activeSessions db t.userId now).isEmpty = false := by
      cases hL : activeSessions db t.userId now with
      | nil => exact absurd hL hne
      | cons x l => rfl
    rw [hv]
    simp [refreshSessionStage, he, hfind]

/-- C4 (amended) witness at concrete inputs: the empty-session run and the
no-match run each produce their 401 response. -/
theorem c4_enumeration_status_witness :
    (refreshHandler envA cmpH1 50 dbNoSessions (some tokU1)).result =
      .error (.Unauthorized "Invalid or expired refresh token") ∧
    (refreshHandler envA cmpH1 50 dbNoMatch (some tokU1)).result =
      .error (.Unauthorized "Invalid refresh token") :=
  ⟨(c4_enumeration_status envA cmpH1 50 dbNoSessions tokU1 "rsec" rfl rfl
      (by decide) (by decide) rfl).1 (by decide),
   (c4_enumeration_status envA cmpH1 50 dbNoMatch tokU1 "rsec" rfl rfl
      (by decide) (by decide) rfl).2.1 (by decide) (by decide)⟩

/-- C5: counterexample. Refreshing a deactivated user's valid token does
invalidate the matched session, but the failure is the 401 Unauthorized
response `User account is not active`, which the client-side classifier maps
to InvalidCredentials — not to AccountDeactivated, which it reserves for
status 403. -/
theorem c5_kind_counterexample :
    (refreshHandler envA cmpH1 50 dbInactiveUser (some tokU1)).result =
      .error (.Unauthorized "User account is not active") ∧
    errStatus (refreshHandler envA cmpH1 50 dbInactiveUser (some tokU1)).result =
      some 401 ∧
    determineErrorType true (some 401) false = .INVALID_CREDENTIALS ∧
    determineErrorType true (some 401) false ≠ .ACCOUNT_DEACTIVATED ∧
    determineErrorType true (some 403) false = .ACCOUNT_DEACTIVATED ∧
    (refreshHandler envA cmpH1 50 dbInactiveUser (some tokU1)).db =
      ⟨[⟨"u1", false⟩], [⟨1, "u1", "h1", false, 200⟩]⟩ := by decide

/-- C5 (amended): when the matched session's owning user is missing or
deactivated, the refresh invalidates the matched session as a side effect
and fails with the 401 Unauthorized response `User account is not active`,
which the client classifies as InvalidCredentials rather than
AccountDeactivated. -/
theorem c5_deactivated_user_refresh (env : Env) (compare : BcryptCompare)
    (now : Nat) (db : Db) (t : Token) (rs : String) (sm : SessionRow)
    (hsec : env.jwtRefreshSecret = some rs) (hsig : t.secret = rs)
    (hexp : now < t.exp) (huid : t.userId ≠ "") (hty : t.type = "refresh")
    (hfind : (activeSessions db t.userId now).find?
      (fun s => compare t s.refresh_token_hash) = some sm)
    (huser : db.users.find? (fun u => u.id == t.userId) = none ∨
      ∃ u, db.users.find? (fun x => x.id == t.userId) = some u ∧
        u.is_active = false) :
    refreshHandler env compare now db (some t) =
      ⟨invalidateSession db sm.id,
        .error (.Unauthorized "User account is not active")⟩ ∧
    (∀ s ∈ (refreshHandler env compare now db (some t)).db.sessions,
      s.id = sm.id → s.is_active = false) ∧
    errStatus (refreshHandler env compare now db (some t)).result = some 401 ∧
    determineErrorType true (some 401) false = .INVALID_CREDENTIALS ∧
    determineErrorType true (some 401) false ≠ .ACCOUNT_DEACTIVATED := by
  have hv := refreshHandler_valid env compare now db t rs hsec hsig hexp huid hty
  have hne : (activeSessions db t.userId now).isEmpty = false := by
    cases hL : activeSessions db t.userId now with
    | nil => rw [hL] at hfind; simp at hfind
    | cons x l => rfl
  have hshape : refreshSessionStage env compare now db t =
      ⟨invalidateSession db sm.id,
        .error (.Unauthorized "User account is not active")⟩ := by
    rcases huser with hnone | ⟨u, hsome, hinact⟩
    · simp [refreshSessionStage, hne, hfind, hnone]
    · simp [refreshSessionStage, hne, hfind, hsome, hinact]
  rw [hv, hshape]
  refine ⟨rfl, ?_, rfl, by decide, by decide⟩
  intro s hs hsid
  simp only [invalidateSession, List.mem_map] at hs
  obtain ⟨s₂, hs₂, hfs⟩ := hs
  by_cases hcase : s₂.id = sm.id
  · rw [if_pos hcase] at hfs
    rw [← hfs]
  · rw [if_neg hcase] at hfs
    rw [← hfs] at hsid
    exact absurd hsid hcase

/-- C5 (amended) witness at a concrete input: the deactivated-user fixture
run invalidates session 1 and answers the 401 response. -/
theorem c5_deactivated_user_refresh_witness :
    refreshHandler envA cmpH1 50 dbInactiveUser (some tokU1) =
      ⟨invalidateSession dbInactiveUser sessionOne.id,
        .error (.Unauthorized "User account is not active")⟩ ∧
    (∀ s ∈ (refreshHandler envA cmpH1 50 dbInactiveUser (some tokU1)).db.sessions,
      s.id = sessionOne.id → s.is_active = false) ∧
    errStatus (refreshHandler envA cmpH1 50 dbInactiveUser (some tokU1)).result =
      some 401 ∧
    determineErrorType true (some 401) false = .INVALID_CREDENTIALS ∧
    determineErrorType true (some 401) false ≠ .ACCOUNT_DEACTIVATED :=
  c5_deactivated_user_refresh envA cmpH1 50 dbInactiveUser tokU1 "rsec" sessionOne
    rfl rfl (by decide) (by decide) rfl (by decide)
    (Or.inr ⟨⟨"u1", false⟩, by decide, rfl⟩)

/-- C6: the logout route always answers 200 — also when the session store
throws internally — and, with a refresh token in the body matching exactly
one of the caller's active sessions, it invalidates exactly that session
and leaves every other row intact; with no token it invalidates all of the
caller's active sessions and touches nobody else's. -/
theorem c6_logout_semantics (compare : BcryptCompare) (uid : String) (db : Db)
    (t : Token) (s₀ : SessionRow) :
    (∀ rt b, (logoutHandler compare uid db rt b).2 = 200) ∧
    (s₀ ∈ db.sessions → s₀.user_id = uid → s₀.is_active = true →
      compare t s₀.refresh_token_hash = true →
      (∀ s ∈ db.sessions, s.user_id = uid → s.is_active = true →
        compare t s.refresh_token_hash = true → s.id = s₀.id) →
      (∀ s ∈ (logoutHandler compare uid db (some t) false).1.sessions,
        s.id = s₀.id → s.is_active = false) ∧
      (∀ s ∈ db.sessions, s.id ≠ s₀.id →
        s ∈ (logoutHandler compare uid db (some t) false).1.sessions)) ∧
    (∀ s ∈ (logoutHandler compare uid db none false).1.sessions,
      s.user_id = uid → s.is_active = false) ∧
    (∀ s ∈ db.sessions, s.user_id ≠ uid →
      s ∈ (logoutHandler compare uid db none false).1.sessions) := by
  refine ⟨?_, ?_, ?_, ?_⟩
  · intro rt b
    cases b with
    | true => rfl
    | false =>
      cases rt with
      | none => rfl
      | some rt2 =>
        simp only [logoutHandler, Bool.false_eq_true, if_false]
        split <;> rfl
  · intro hmem hu hact hcmp huniq
    have hspec := logout_some_spec compare uid db t s₀ hmem hu hact hcmp huniq
    exact ⟨hspec.1, hspec.2.1⟩
  · intro s hs huid2
    simp only [logoutHandler, Bool.false_eq_true, if_false, List.mem_map] at hs
    obtain ⟨s₂, hs₂, hfs⟩ := hs
    by_cases hc : (s₂.user_id == uid && s₂.is_active) = true
    · rw [if_pos hc] at hfs
      rw [← hfs]
    · rw [if_neg hc] at hfs
      subst hfs
      simp only [Bool.and_eq_true, beq_iff_eq] at hc
      cases hact2 : s₂.is_active with
      | false => rfl
      | true => exact absurd ⟨huid2, hact2⟩ hc
  · intro s hs huid2
    simp only [logoutHandler, Bool.false_eq_true, if_false, List.mem_map]
    refine ⟨s, hs, ?_⟩
    rw [if_neg (by simp [huid2])]

/-- C6 witness at a concrete input: logging out of `dbTwoSessions` with the
matching token answers 200 even on an internal store failure, flips exactly
session 1, and the tokenless logout flips every active session of `u1`. -/
theorem c6_logout_semantics_witness :
    (logoutHandler cmpH1 "u1" dbTwoSessions (some tokU1) true).2 = 200 ∧
    (∀ s ∈ (logoutHandler cmpH1 "u1" dbTwoSessions (some tokU1) false).1.sessions,
      s.id = sessionOne.id → s.is_active = false) ∧
    (∀ s ∈ dbTwoSessions.sessions, s.id ≠ sessionOne.id →
      s ∈ (logoutHandler cmpH1 "u1" dbTwoSessions (some tokU1) false).1.sessions) ∧
    (∀ s ∈ (logoutHandler cmpH1 "u1" dbTwoSessions none false).1.sessions,
      s.user_id = "u1" → s.is_active = false) :=
  ⟨(c6_logout_semantics cmpH1 "u1" dbTwoSessions tokU1 sessionOne).1 (some tokU1) true,
   ((c6_logout_semantics cmpH1 "u1" dbTwoSessions tokU1 sessionOne).2.1
      (by decide) rfl rfl (by decide) (by decide)).1,
   ((c6_logout_semantics cmpH1 "u1" dbTwoSessions tokU1 sessionOne).2.1
      (by decide) rfl rfl (by decide) (by decide)).2,
   (c6_logout_semantics cmpH1 "u1" dbTwoSessions tokU1 sessionOne).2.2.1⟩

/-! ## Claims about the rate limiter and the access-token middleware -/

/-- C9: with the configured budget of 5 requests per source per 15-minute
window, each of the first 5 login attempts passes the limiter, and the 6th
within the window is rejected with 429 and the configured retry-after of
15 minutes. -/
theorem c9_rate_limit_budget (n : Nat) (h1 : 1 ≤ n)
    (h5 : n ≤ authLimiter.maxHits) :
    limiterDecide authLimiter (n - 1) = .allow ∧
    limiterDecide authLimiter authLimiter.maxHits =
      .reject 429 authLimiter.retryAfterSecs ∧
    authLimiter.maxHits = 5 ∧
    authLimiter.retryAfterSecs = 15 * 60 ∧
    authLimiter.windowMs = 15 * 60 * 1000 := by
  have hm : authLimiter.maxHits = 5 := rfl
  refine ⟨?_, by decide, rfl, rfl, rfl⟩
  unfold limiterDecide
  rw [if_pos (by omega)]

/-- C9 witness at the boundary: the 5th attempt (4 prior hits) is allowed and
the 6th (5 prior hits) is rejected with the retry-after value. -/
theorem c9_rate_limit_budget_witness :
    limiterDecide authLimiter (5 - 1) = .allow ∧
    limiterDecide authLimiter authLimiter.maxHits =
      .reject 429 authLimiter.retryAfterSecs ∧
    authLimiter.maxHits = 5 ∧
    authLimiter.retryAfterSecs = 15 * 60 ∧
    authLimiter.windowMs = 15 * 60 * 1000 :=
  c9_rate_limit_budget 5 (by decide) (by decide)

/-- C10: the access-token middleware accepts any token verifying under the
access secret whose `userId` claim names an existing active user, without
ever reading the `type` claim: a token with `type = refresh` passes, and
replacing the `type` claim by anything leaves the middleware's answer
unchanged. -/
theorem c10_middleware_ignores_type (env : Env) (now : Nat) (db : Db)
    (t : Token) (u : UserRow) (s : String)
    (hsec : env.jwtSecret = some s) (hsig : t.secret = s) (hexp : now < t.exp)
    (hty : t.type = "refresh") (huid : t.userId ≠ "")
    (hu : db.users.find? (fun x => x.id == t.userId) = some u)
    (hact : u.is_active = true) :
    authenticateToken env now db (some t) = .ok u.id ∧
    (∀ x, authenticateToken env now db (some { t with type := x }) =
      authenticateToken env now db (some t)) := by
  constructor
  · unfold authenticateToken
    rw [hsec]
    simp [hsig, huid, hu, hact, Nat.not_le.mpr hexp]
  · intro x
    unfold authenticateToken
    rfl

/-- C10 witness at a concrete input: a `type = refresh` token signed with
the access secret of `envA` is accepted by the middleware for the active
user `u1`. -/
theorem c10_middleware_ignores_type_witness :
    authenticateToken envA 50 dbTwoSessions
      (some tokRefreshUnderAccessSecret) = .ok "u1" ∧
    (∀ x, authenticateToken envA 50 dbTwoSessions
      (some { tokRefreshUnderAccessSecret with type := x }) =
      authenticateToken envA 50 dbTwoSessions (some tokRefreshUnderAccessSecret)) :=
  c10_middleware_ignores_type envA 50 dbTwoSessions tokRefreshUnderAccessSecret
    ⟨"u1", true⟩ "asec" rfl rfl (by decide) rfl (by decide) (by decide) rfl

end Chronosi
